import Mathlib

/-
  Verification of the APU (audio processing unit) emulation of Fearless-NES
  (src/nes/src/apu.rs), as a shallow embedding in Lean 4.

  Machine integers are modelled as Nat with explicit reduction modulo 2^16
  (resp. 2^32) wherever the Rust u16 (u32) arithmetic can wrap; release-mode
  wrapping semantics are modelled for the + and - operators on u16.
  The const-generic polarity parameter ADDER of Pulse and Sweep is modelled
  as an explicit Nat argument of the operations (1 for pulse 1, 0 for pulse 2).
-/

/-- Wrapping u16 addition, as in release-mode Rust. -/
def wadd16 (a b : Nat) : Nat := (a + b) % 65536

/-- Wrapping u16 subtraction (a - b over u16), as in release-mode Rust. -/
def wsub16 (a b : Nat) : Nat := (a + 65536 - b % 65536) % 65536

/-- Envelope unit state (struct Envelope). Field order follows the source:
start, period, step, constant_volume, decay_counter, loop. -/
structure Envelope where
  start : Bool
  period : Nat
  step : Nat
  constant_volume : Bool
  decay_counter : Nat
  loop : Bool
deriving DecidableEq, Repr

/-- LengthCounter state (struct LengthCounter). -/
structure LengthCounter where
  enabled : Bool
  counter : Nat
deriving DecidableEq, Repr

/-- Sweep unit state (struct Sweep<ADDER>); the ADDER polarity constant is
passed to the operations explicitly. -/
structure Sweep where
  enabled : Bool
  negate : Bool
  shift : Nat
  period : Nat
  counter : Nat
  reload : Bool
  timer : Nat
deriving DecidableEq, Repr

/-- Pulse channel state (struct Pulse<ADDER>). -/
structure Pulse where
  duty_cycle : Nat
  duty_seq : Nat
  envelope : Envelope
  sweep : Sweep
  length_counter : LengthCounter
deriving DecidableEq, Repr

/-- Triangle channel register state (struct Triangle). -/
structure Triangle where
  counter_control : Bool
  counter_reload : Nat
  timer : Nat
  length_counter : LengthCounter
deriving DecidableEq, Repr

/-- Noise channel register state (struct Noise). -/
structure Noise where
  constant_volume : Bool
  volume : Nat
  loop_noise : Bool
  noise_period : Nat
  length_counter : LengthCounter
deriving DecidableEq, Repr

/-- DMC channel register state (struct Dmc). -/
structure Dmc where
  irq_enable : Bool
  loop_sample : Bool
  frequency_index : Nat
  direct_load : Nat
  sample_address : Nat
  sample_length : Nat
deriving DecidableEq, Repr

/-- Frame counter state (struct FrameCounter). -/
structure FrameCounter where
  mode : Bool
  odd_cycle : Bool
  irq_inhibit : Bool
deriving DecidableEq, Repr

/-- APU state (struct Apu). The two f32 mixer tables are immutable and only
their lengths matter for the claims; they are modelled by pulse_table_len and
tnd_table_len below. -/
structure Apu where
  cycles : Nat
  sample_counter : Nat
  pulse_1 : Pulse
  pulse_2 : Pulse
  triangle : Triangle
  noise : Noise
  dmc : Dmc
  frame_counter : FrameCounter
deriving DecidableEq, Repr

/-- The slice of the Nes state the APU code touches: the Apu itself and the
shared CPU interrupt line self.cpu.irq_signal. -/
structure Nes where
  apu : Apu
  irq_signal : Bool
deriving DecidableEq, Repr

/-- Length of the pulse mixer table (vec![0f32; 31] in Apu::new). -/
def pulse_table_len : Nat := 31

/-- Length of the tnd mixer table (vec![0f32; 203] in Apu::new). -/
def tnd_table_len : Nat := 203

/-- static LENGTH_TABLE: [u8; 0x20]. -/
def lengthTable : List Nat :=
  [10, 254, 20, 2, 40, 4, 80, 6, 160, 8, 60, 10, 14, 12, 26, 14, 12, 16, 24,
   18, 48, 20, 96, 22, 192, 24, 72, 26, 16, 28, 32, 30]

/-- static DUTY_SEQUENCE: [bool; 0x20]. -/
def dutySequence : List Bool :=
  [false, false, false, false, false, false, false, true,
   false, false, false, false, false, false, true, true, false,
   false, false, false, true, true, true, true, true,
   true, true, true, true, true, false, false]

/-- Envelope::new. -/
def Envelope.new : Envelope :=
  { start := false, period := 0, step := 0, constant_volume := false,
    decay_counter := 0, loop := false }

/-- Envelope::clock. -/
def Envelope.clock (e : Envelope) : Envelope :=
  if e.start = false then
    if e.step = 0 then
      { e with
        step := e.period,
        decay_counter :=
          if e.decay_counter ≠ 0 then e.decay_counter - 1
          else if e.loop = true then 15 else e.decay_counter }
    else
      { e with step := e.step - 1 }
  else
    { e with
      start := false,
      decay_counter := 15,
      step := e.period }

/-- LengthCounter::new. -/
def LengthCounter.new : LengthCounter := { enabled := true, counter := 0 }

/-- LengthCounter::load. -/
def LengthCounter.load (lc : LengthCounter) (val : Nat) : LengthCounter :=
  if lc.enabled = true then { lc with counter := lengthTable.getD val 0 } else lc

/-- LengthCounter::clock. -/
def LengthCounter.clock (lc : LengthCounter) : LengthCounter :=
  if lc.counter > 0 ∧ lc.enabled = true then { lc with counter := lc.counter - 1 }
  else lc

/-- Sweep::new. -/
def Sweep.new : Sweep :=
  { enabled := false, negate := false, shift := 0, period := 0, counter := 0,
    reload := false, timer := 0 }

/-- Sweep::load. -/
def Sweep.load (s : Sweep) (val : Nat) : Sweep :=
  { s with
    enabled := val &&& 0x80 != 0,
    period := (val &&& 0x70) >>> 4,
    negate := val &&& 8 != 0,
    shift := val &&& 7,
    reload := true }

/-- The divider branch at the top of Sweep::clock: if the counter is zero or
the reload flag is set, the counter is set to period + 1 and reload cleared;
otherwise the counter is decremented. -/
def Sweep.divStep (s : Sweep) : Sweep :=
  if s.counter = 0 ∨ s.reload = true then
    { s with
      counter := wadd16 s.period 1,
      reload := false }
  else
    { s with counter := s.counter - 1 }

/-- Sweep::clock for the variant with the given ADDER polarity constant. -/
def Sweep.clock (adder : Nat) (s : Sweep) : Sweep :=
  let s1 := s.divStep
  let mute := false
  if s1.counter = 0 ∧ s1.enabled = true ∧ mute = false then
    let change := s1.timer >>> s1.shift
    { s1 with
      counter := wadd16 s1.period 1,
      period :=
        if s1.negate = false then wadd16 s1.period change
        else wadd16 s1.period (wsub16 adder change) }
  else s1

/-- Pulse::new. -/
def Pulse.new : Pulse :=
  { duty_cycle := 0, duty_seq := 0, envelope := Envelope.new,
    sweep := Sweep.new, length_counter := LengthCounter.new }

/-- Pulse::set_dlcv (register 0x4000 / 0x4004). -/
def Pulse.set_dlcv (p : Pulse) (val : Nat) : Pulse :=
  { p with
    duty_seq := (val &&& 0xC0) >>> 3,
    length_counter := { p.length_counter with enabled := val &&& 0x20 == 0 },
    envelope :=
      { p.envelope with
        loop := val &&& 0x20 != 0,
        constant_volume := val &&& 0x10 != 0,
        period := val &&& 0xF } }

/-- Pulse::set_epns (register 0x4001 / 0x4005). -/
def Pulse.set_epns (p : Pulse) (val : Nat) : Pulse :=
  { p with sweep := p.sweep.load val }

/-- Pulse::set_t (register 0x4002 / 0x4006): timer low byte. -/
def Pulse.set_t (p : Pulse) (val : Nat) : Pulse :=
  { p with sweep := { p.sweep with timer := (p.sweep.timer &&& 0xFF00) ||| val } }

/-- Pulse::set_lt (register 0x4003 / 0x4007): length load and timer high. -/
def Pulse.set_lt (p : Pulse) (val : Nat) : Pulse :=
  { p with
    duty_cycle := 0,
    length_counter := p.length_counter.load ((val &&& 0xF8) >>> 3),
    sweep :=
      { p.sweep with
        timer := (p.sweep.timer &&& 0xF8FF) ||| ((val &&& 7) <<< 8) } }

/-- Pulse::clock: the duty-phase timer, clocked on even APU cycles. -/
def Pulse.clock (p : Pulse) : Pulse :=
  if p.sweep.timer > 0 then
    { p with sweep := { p.sweep with timer := p.sweep.timer - 1 } }
  else
    { p with
      duty_cycle := (p.duty_cycle + 1) &&& 7,
      sweep := { p.sweep with timer := p.sweep.period } }

/-- Pulse::frame_clock. -/
def Pulse.frame_clock (adder : Nat) (p : Pulse) : Pulse :=
  { p with
    length_counter := p.length_counter.clock,
    envelope := p.envelope.clock,
    sweep := Sweep.clock adder p.sweep }

/-- Pulse::output. -/
def Pulse.output (p : Pulse) : Nat :=
  let active := dutySequence.getD (p.duty_seq ||| p.duty_cycle) false
  if active = true ∧ p.length_counter.counter > 0 ∧ p.sweep.timer ≥ 8 ∧
      p.sweep.period < 0x800 then
    if p.envelope.constant_volume = true then p.envelope.period
    else p.envelope.step
  else 0

/-- Triangle::new. -/
def Triangle.new : Triangle :=
  { counter_control := false, counter_reload := 0, timer := 0,
    length_counter := LengthCounter.new }

/-- Triangle::set_c (register 0x4008). -/
def Triangle.set_c (t : Triangle) (val : Nat) : Triangle :=
  { t with
    counter_control := val &&& 0x80 != 0,
    length_counter := { t.length_counter with enabled := val &&& 0x80 == 0 },
    counter_reload := val &&& 0x7F }

/-- Triangle::set_tl (register 0x400A). -/
def Triangle.set_tl (t : Triangle) (val : Nat) : Triangle :=
  { t with timer := (t.timer &&& 0xFF00) ||| val }

/-- Triangle::set_l (register 0x400B). -/
def Triangle.set_l (t : Triangle) (val : Nat) : Triangle :=
  { t with
    length_counter := t.length_counter.load ((val &&& 0xF8) >>> 3),
    timer := (t.timer &&& 0xF8FF) ||| ((val &&& 7) <<< 8) }

/-- Noise::new. -/
def Noise.new : Noise :=
  { constant_volume := false, volume := 0, loop_noise := false,
    noise_period := 0, length_counter := LengthCounter.new }

/-- Noise::set_lcn (register 0x400C). -/
def Noise.set_lcn (ns : Noise) (val : Nat) : Noise :=
  { ns with
    length_counter := { ns.length_counter with enabled := val &&& 0x20 == 0 },
    constant_volume := val &&& 0x10 != 0,
    volume := val &&& 0xF }

/-- Noise::set_lp (register 0x400E). -/
def Noise.set_lp (ns : Noise) (val : Nat) : Noise :=
  { ns with
    loop_noise := val &&& 0x80 != 0,
    noise_period := val &&& 0xF }

/-- Noise::set_l (register 0x400F). -/
def Noise.set_l (ns : Noise) (val : Nat) : Noise :=
  { ns with length_counter := ns.length_counter.load ((val &&& 0xF8) >>> 3) }

/-- Dmc::new. -/
def Dmc.new : Dmc :=
  { irq_enable := false, loop_sample := false, frequency_index := 0,
    direct_load := 0, sample_address := 0, sample_length := 0 }

/-- Dmc::set_ilf (register 0x4010). -/
def Dmc.set_ilf (d : Dmc) (val : Nat) : Dmc :=
  { d with
    irq_enable := val &&& 0x80 != 0,
    loop_sample := val &&& 0x40 != 0,
    frequency_index := val &&& 0xF }

/-- Dmc::set_d (register 0x4011). -/
def Dmc.set_d (d : Dmc) (val : Nat) : Dmc :=
  { d with direct_load := val &&& 0x7F }

/-- Dmc::set_a (register 0x4012). -/
def Dmc.set_a (d : Dmc) (val : Nat) : Dmc :=
  { d with sample_address := 0xC000 ||| (val <<< 6) }

/-- Dmc::set_l (register 0x4013). -/
def Dmc.set_l (d : Dmc) (val : Nat) : Dmc :=
  { d with sample_length := 1 ||| (val <<< 4) }

/-- FrameCounter::new. -/
def FrameCounter.new : FrameCounter :=
  { mode := false, odd_cycle := false, irq_inhibit := true }

/-- FrameCounter::set_mi: returns the new frame counter together with the new
value of the shared irq signal (passed by mutable reference in the source). -/
def FrameCounter.set_mi (fc : FrameCounter) (val : Nat) (irq : Bool) :
    FrameCounter × Bool :=
  let fc1 := { fc with
               mode := val &&& 0x80 != 0,
               irq_inhibit := fc.irq_inhibit && (val &&& 0x40 == 0) }
  (fc1, if fc1.irq_inhibit = true then false else irq)

/-- Apu::new. -/
def Apu.new : Apu :=
  { cycles := 0, sample_counter := 0, pulse_1 := Pulse.new, pulse_2 := Pulse.new,
    triangle := Triangle.new, noise := Noise.new, dmc := Dmc.new,
    frame_counter := FrameCounter.new }

/-- The initial Nes slice: a freshly constructed Apu, interrupt line low. -/
def Nes.new : Nes := { apu := Apu.new, irq_signal := false }

/-- The envelope-only (quarter-frame) event of apu_tick: clock both pulse
envelopes. -/
def Apu.clockEnvelopes (a : Apu) : Apu :=
  { a with
    pulse_1 := { a.pulse_1 with envelope := a.pulse_1.envelope.clock },
    pulse_2 := { a.pulse_2 with envelope := a.pulse_2.envelope.clock } }

/-- The envelope + length/sweep (half-frame) event of apu_tick: frame_clock
both pulses and clock the noise and triangle length counters. The same block
is run by the 0x4017 write when bit 7 of the value is set. -/
def Apu.clockHalfFrame (a : Apu) : Apu :=
  { a with
    pulse_1 := Pulse.frame_clock 1 a.pulse_1,
    pulse_2 := Pulse.frame_clock 0 a.pulse_2,
    noise := { a.noise with length_counter := a.noise.length_counter.clock },
    triangle := { a.triangle with length_counter := a.triangle.length_counter.clock } }

/-- The mode-dependent match on self.apu.cycles inside Nes::apu_tick, in
source order. The 4-step arms at 0 and 29828 and the commented-out interrupt
assertions at 29828/29829/29830 do nothing. -/
def Apu.frameDispatch (a : Apu) : Apu :=
  if a.frame_counter.mode = true then
    if a.cycles = 7457 then a.clockEnvelopes
    else if a.cycles = 14913 then a.clockHalfFrame
    else if a.cycles = 22371 then a.clockEnvelopes
    else if a.cycles = 37281 then a.clockHalfFrame
    else if a.cycles = 37282 then { a with cycles := 0 }
    else a
  else
    if a.cycles = 0 then a
    else if a.cycles = 7457 then a.clockEnvelopes
    else if a.cycles = 14913 then a.clockHalfFrame
    else if a.cycles = 22371 then a.clockEnvelopes
    else if a.cycles = 29828 then a
    else if a.cycles = 29829 then a.clockHalfFrame
    else if a.cycles = 29830 then { a with cycles := 0 }
    else a

/-- The first block of Nes::apu_tick: on even cycles, clock both pulse
duty-phase timers. -/
def Apu.pulseTimers (a : Apu) : Apu :=
  if a.cycles % 2 = 0 then
    { a with pulse_1 := a.pulse_1.clock, pulse_2 := a.pulse_2.clock }
  else a

/-- The second block of Nes::apu_tick: the wrapping u16 counter increment. -/
def Apu.advanceCycles (a : Apu) : Apu := { a with cycles := wadd16 a.cycles 1 }

/-- The last block of Nes::apu_tick: the sample divider advances every tick
and resets at SAMPLE_FREQ = 40; the mixer call it guards reads the state
without mutating it. -/
def Apu.sampleStep (a : Apu) : Apu :=
  let a4 := { a with sample_counter := (a.sample_counter + 1) % 4294967296 }
  if a4.sample_counter = 40 then { a4 with sample_counter := 0 } else a4

/-- One tick of the Apu, from Nes::apu_tick: its four sequential blocks. -/
def Apu.tick (a : Apu) : Apu :=
  a.pulseTimers.advanceCycles.frameDispatch.sampleStep

/-- Nes::apu_tick only touches self.apu. -/
def Nes.apu_tick (n : Nes) : Nes := { n with apu := n.apu.tick }

/-- The index into the 31-entry pulse mixer table computed by Nes::mixer. -/
def Nes.mixer_pulse_index (n : Nes) : Nat :=
  n.apu.pulse_1.output + n.apu.pulse_2.output

/-- The index into the 203-entry tnd mixer table computed by Nes::mixer;
the triangle, noise and dmc contributions are the fixed zeros of the source. -/
def Nes.mixer_tnd_index (_n : Nes) : Nat :=
  let triangle := 0
  let noise := 0
  let dmc := 0
  3 * triangle + 2 * noise + dmc

/-- Nes::apu_write_status (the 0x4015 write); it mutates only self.apu. -/
def Apu.write_status (a : Apu) (val : Nat) : Apu :=
  let a0 := { a with dmc := { a.dmc with irq_enable := false } }
  let bn := val &&& 8 != 0
  let bt := val &&& 4 != 0
  let bp2 := val &&& 2 != 0
  let bp1 := val &&& 1 != 0
  let noise1 :=
    if bn = true then a0.noise
    else { a0.noise with
           volume := 0,
           length_counter := { a0.noise.length_counter with counter := 0 } }
  let noise2 := { noise1 with
                  length_counter := { noise1.length_counter with enabled := bn } }
  let tri1 :=
    if bt = true then a0.triangle
    else { a0.triangle with
           length_counter := { a0.triangle.length_counter with counter := 0 } }
  let tri2 := { tri1 with
                length_counter := { tri1.length_counter with enabled := bt } }
  let p21 :=
    if bp2 = true then a0.pulse_2
    else { a0.pulse_2 with
           length_counter := { a0.pulse_2.length_counter with counter := 0 } }
  let p22 := { p21 with
               length_counter := { p21.length_counter with enabled := bp2 } }
  let p11 :=
    if bp1 = true then a0.pulse_1
    else { a0.pulse_1 with
           length_counter := { a0.pulse_1.length_counter with counter := 0 } }
  let p12 := { p11 with
               length_counter := { p11.length_counter with enabled := bp1 } }
  { a0 with
    noise := noise2,
    triangle := tri2,
    pulse_2 := p22,
    pulse_1 := p12 }

/-- The arms of Nes::apu_write_reg other than 0x4017; each of them mutates
only self.apu, so they are collected into one Apu-level function. Any
unmapped address is a no-op. -/
def Apu.write_reg (a : Apu) (addr val : Nat) : Apu :=
  if addr = 0x4000 then { a with pulse_1 := a.pulse_1.set_dlcv val }
  else if addr = 0x4001 then { a with pulse_1 := a.pulse_1.set_epns val }
  else if addr = 0x4002 then { a with pulse_1 := a.pulse_1.set_t val }
  else if addr = 0x4003 then { a with pulse_1 := a.pulse_1.set_lt val }
  else if addr = 0x4004 then { a with pulse_2 := a.pulse_2.set_dlcv val }
  else if addr = 0x4005 then { a with pulse_2 := a.pulse_2.set_epns val }
  else if addr = 0x4006 then { a with pulse_2 := a.pulse_2.set_t val }
  else if addr = 0x4007 then { a with pulse_2 := a.pulse_2.set_lt val }
  else if addr = 0x4008 then { a with triangle := a.triangle.set_c val }
  else if addr = 0x400A then { a with triangle := a.triangle.set_tl val }
  else if addr = 0x400B then { a with triangle := a.triangle.set_l val }
  else if addr = 0x400C then { a with noise := a.noise.set_lcn val }
  else if addr = 0x400E then { a with noise := a.noise.set_lp val }
  else if addr = 0x400F then { a with noise := a.noise.set_l val }
  else if addr = 0x4010 then { a with dmc := a.dmc.set_ilf val }
  else if addr = 0x4011 then { a with dmc := a.dmc.set_d val }
  else if addr = 0x4012 then { a with dmc := a.dmc.set_a val }
  else if addr = 0x4013 then { a with dmc := a.dmc.set_l val }
  else if addr = 0x4015 then a.write_status val
  else a

/-- Nes::apu_write_reg: the register dispatch for 0x4000 - 0x4017; any other
address is a no-op. The 0x4017 arm is the only one that can touch the shared
irq line, so it is dispatched first; since the match is over distinct
address constants this ordering is equivalent to the source order. -/
def Nes.apu_write_reg (n : Nes) (addr val : Nat) : Nes :=
  if addr = 0x4017 then
    let n1 := if val &&& 0x80 ≠ 0 then { n with apu := n.apu.clockHalfFrame } else n
    let p := FrameCounter.set_mi n1.apu.frame_counter val n1.irq_signal
    { n1 with
      apu := { n1.apu with frame_counter := p.1 },
      irq_signal := p.2 }
  else { n with apu := n.apu.write_reg addr val }

/-- Nes::apu_read_status: returns the status byte together with the new state
(the read clears the irq_inhibit flag and the shared irq signal). The source
accumulates the byte with one result |= bit statement per condition; since
each statement contributes a distinct bit, that is the bitwise or of the six
independent contributions below. -/
def Nes.apu_read_status (n : Nes) : Nat × Nes :=
  let b0 : Nat := if n.apu.pulse_1.length_counter.counter > 0 then 1 else 0
  let b1 : Nat := if n.apu.pulse_2.length_counter.counter > 0 then 2 else 0
  let b2 : Nat := if n.apu.triangle.length_counter.counter > 0 then 4 else 0
  let b3 : Nat := if n.apu.noise.length_counter.counter > 0 then 8 else 0
  let b6 : Nat := if n.apu.frame_counter.irq_inhibit = true then 0x40 else 0
  let b7 : Nat := if n.apu.dmc.irq_enable = true then 0x80 else 0
  (b0 ||| b1 ||| b2 ||| b3 ||| b6 ||| b7, { n with
         apu := { n.apu with
                  frame_counter := { n.apu.frame_counter with irq_inhibit := false } },
         irq_signal := false })

/-! ### Helper lemmas about the Sweep unit -/

lemma Sweep.divStep_enabled (s : Sweep) : s.divStep.enabled = s.enabled := by
  unfold Sweep.divStep; split <;> rfl

lemma Sweep.divStep_negate (s : Sweep) : s.divStep.negate = s.negate := by
  unfold Sweep.divStep; split <;> rfl

lemma Sweep.divStep_period (s : Sweep) : s.divStep.period = s.period := by
  unfold Sweep.divStep; split <;> rfl

lemma Sweep.divStep_timer (s : Sweep) : s.divStep.timer = s.timer := by
  unfold Sweep.divStep; split <;> rfl

lemma Sweep.divStep_shift (s : Sweep) : s.divStep.shift = s.shift := by
  unfold Sweep.divStep; split <;> rfl

/-- When the divider lands on zero and the unit is enabled, Sweep::clock
recomputes the period: plus the change amount when negate is clear, plus the
wrapped (ADDER - change) when negate is set. -/
lemma sweep_clock_recompute (adder : Nat) (s : Sweep)
    (h0 : s.divStep.counter = 0) (h1 : s.enabled = true) :
    (Sweep.clock adder s).period =
      if s.negate = false then wadd16 s.period (s.timer >>> s.shift)
      else wadd16 s.period (wsub16 adder (s.timer >>> s.shift)) := by
  simp only [Sweep.clock]
  rw [if_pos ⟨h0, by rw [Sweep.divStep_enabled]; exact h1, trivial⟩]
  simp only [Sweep.divStep_negate, Sweep.divStep_period, Sweep.divStep_timer,
    Sweep.divStep_shift]

lemma wadd_wsub_one (p c : Nat) :
    wadd16 p (wsub16 1 c) = (wadd16 p (wsub16 0 c) + 1) % 65536 := by
  unfold wadd16 wsub16
  omega

/-! ### C1: Pulse::output gating and the returned volume -/

/-- A concrete Pulse state on which all four gating conditions of
Pulse::output hold: duty table entry 16 ||| 4 = 20 is active, the length
counter is 1, the sweep timer is 8 and the sweep period is 0x100 < 0x800;
constant volume is clear, the envelope divider step is 3 and the envelope
decay level is 7. -/
def c1_fail_pulse : Pulse :=
  { duty_cycle := 4, duty_seq := 16,
    envelope := { start := false, period := 5, step := 3, constant_volume := false,
                  decay_counter := 7, loop := false },
    sweep := { enabled := false, negate := false, shift := 0, period := 0x100,
               counter := 0, reload := false, timer := 8 },
    length_counter := { enabled := true, counter := 1 } }

/-- C1: at a gated state with the constant-volume flag clear, Pulse::output
returns the envelope field step (the divider step counter), which differs
from the envelope decay level decay_counter; the claim (and the comment in
the source itself) say the current decay level is the output volume. -/
theorem c1_output_step_divergence :
    Pulse.output c1_fail_pulse = c1_fail_pulse.envelope.step ∧
    c1_fail_pulse.envelope.step = 3 ∧
    c1_fail_pulse.envelope.decay_counter = 7 ∧
    Pulse.output c1_fail_pulse ≠ c1_fail_pulse.envelope.decay_counter := by
  refine ⟨rfl, rfl, rfl, ?_⟩
  decide

/-! ### C2: the two sweep polarity variants -/

/-- A sweep state that reaches the recompute step and makes the ADDER=0
variant wrap to 0xFFFF while the ADDER=1 variant lands on 0. -/
def c2_cex_sweep : Sweep :=
  { enabled := true, negate := true, shift := 0, period := 0, counter := 1,
    reload := false, timer := 1 }

/-- C2 counterexample: with negate set, period 0, shift 0 and timer 1, the
recomputed period of the ADDER=1 variant is 0 and that of the ADDER=0
variant is 0xFFFF, so the former does not exceed the latter by exactly 1. -/
theorem c2_sweep_exceeds_counterexample :
    (Sweep.clock 1 c2_cex_sweep).period = 0 ∧
    (Sweep.clock 0 c2_cex_sweep).period = 65535 ∧
    (Sweep.clock 1 c2_cex_sweep).period ≠ (Sweep.clock 0 c2_cex_sweep).period + 1 := by
  decide

/-- C2 (amended): for any sweep state whose clock() reaches the recompute
step (the divider lands on zero and the unit is enabled), the ADDER=1
variant recomputes the period of the ADDER=0 variant plus one, modulo 2^16
(both periods live in a wrapping u16 register); with negate clear the two
variants recompute equal periods. -/
theorem c2_sweep_polarity (s : Sweep)
    (h0 : s.divStep.counter = 0) (h1 : s.enabled = true) :
    (s.negate = true →
      (Sweep.clock 1 s).period = ((Sweep.clock 0 s).period + 1) % 65536) ∧
    (s.negate = false →
      (Sweep.clock 1 s).period = (Sweep.clock 0 s).period) := by
  constructor
  · intro hneg
    rw [sweep_clock_recompute 1 s h0 h1, sweep_clock_recompute 0 s h0 h1]
    simp [hneg]
    exact wadd_wsub_one s.period (s.timer >>> s.shift)
  · intro hneg
    rw [sweep_clock_recompute 1 s h0 h1, sweep_clock_recompute 0 s h0 h1]
    simp [hneg]

/-- A sweep state reaching the recompute step with negate set (no wrap). -/
def c2_wit_sweep : Sweep :=
  { enabled := true, negate := true, shift := 1, period := 10, counter := 1,
    reload := false, timer := 12 }

/-- Witness for c2_sweep_polarity at a concrete state. -/
theorem c2_sweep_polarity_witness :
    c2_wit_sweep.divStep.counter = 0 ∧ c2_wit_sweep.enabled = true ∧
    (Sweep.clock 1 c2_wit_sweep).period = ((Sweep.clock 0 c2_wit_sweep).period + 1) % 65536 :=
  ⟨by decide, by decide,
   (c2_sweep_polarity c2_wit_sweep (by decide) (by decide)).1 (by decide)⟩

/-! ### C7: overflow behaviour of the sweep period recomputation -/

/-- A sweep state on which the recomputed period overflows 11 bits: period
0x700, shift 0, timer 0x700, negate clear. -/
def c7_cex_sweep : Sweep :=
  { enabled := true, negate := false, shift := 0, period := 0x700, counter := 1,
    reload := false, timer := 0x700 }

/-- C7 counterexample: the stored period after the recompute step is the full
16-bit sum 0xE00, not the sum reduced as an 11-bit quantity (which would be
0x600); so the stored period is not an 11-bit value. -/
theorem c7_eleven_bit_counterexample :
    (Sweep.clock 0 c7_cex_sweep).period = 0xE00 ∧
    (0x700 + 0x700) % 2048 = 0x600 ∧
    (Sweep.clock 0 c7_cex_sweep).period ≠ (0x700 + 0x700) % 2048 := by
  decide

/-- C7 (amended): whenever clock() reaches the recompute step, for either
polarity variant (ADDER = 0 or 1), the stored period is the exact integer
result period + change (negate clear) or period + ADDER - change (negate
set) reduced modulo 2^16 -- the width of the u16 register it is stored in,
not 11 bits -- and it is the same function of ADDER for both variants, so
the under/overflow behaviour is preserved bit-for-bit between the channels. -/
theorem c7_sweep_overflow (adder : Nat) (s : Sweep)
    (ha : adder = 0 ∨ adder = 1)
    (h0 : s.divStep.counter = 0) (h1 : s.enabled = true)
    (_hp : s.period < 65536) (ht : s.timer < 65536) :
    ((Sweep.clock adder s).period : Int) =
      ((s.period : Int) +
        (if s.negate = false then ((s.timer >>> s.shift : Nat) : Int)
         else (adder : Int) - ((s.timer >>> s.shift : Nat) : Int))) % 65536 ∧
    (Sweep.clock adder s).period < 65536 := by
  have hc : s.timer >>> s.shift < 65536 := by
    calc s.timer >>> s.shift ≤ s.timer := by
          rw [Nat.shiftRight_eq_div_pow]; exact Nat.div_le_self _ _
      _ < 65536 := ht
  rw [sweep_clock_recompute adder s h0 h1]
  constructor
  · split_ifs
    · unfold wadd16
      omega
    · unfold wadd16 wsub16
      rcases ha with ha | ha <;> subst ha <;> omega
  · split_ifs <;> unfold wadd16 <;> exact Nat.mod_lt _ (by omega)

/-- A concrete state for the c7 witness: negate set, ADDER = 1, change 20. -/
def c7_wit_sweep : Sweep :=
  { enabled := true, negate := true, shift := 0, period := 5, counter := 1,
    reload := false, timer := 20 }

/-- Witness for c7_sweep_overflow at a concrete state: the recomputed period
underflows to 65522 = (5 + 1 - 20) mod 2^16. -/
theorem c7_sweep_overflow_witness :
    c7_wit_sweep.divStep.counter = 0 ∧
    ((Sweep.clock 1 c7_wit_sweep).period : Int) =
      ((c7_wit_sweep.period : Int) +
        (if c7_wit_sweep.negate = false
         then ((c7_wit_sweep.timer >>> c7_wit_sweep.shift : Nat) : Int)
         else (1 : Int) - ((c7_wit_sweep.timer >>> c7_wit_sweep.shift : Nat) : Int))) % 65536 ∧
    (Sweep.clock 1 c7_wit_sweep).period < 65536 :=
  ⟨by decide,
   (c7_sweep_overflow 1 c7_wit_sweep (Or.inr rfl) (by decide) (by decide)
     (by decide) (by decide)).1,
   (c7_sweep_overflow 1 c7_wit_sweep (Or.inr rfl) (by decide) (by decide)
     (by decide) (by decide)).2⟩

/-! ### C8: envelope decay timing -/

/-- While the divider step counter is positive, each Envelope::clock just
decrements it, leaving the decay level untouched. -/
lemma env_clock_step_run (P : Nat) (cv : Bool) (dd : Nat) :
    ∀ r s, r ≤ s →
      Envelope.clock^[r] ⟨false, P, s, cv, dd, false⟩ =
        ⟨false, P, s - r, cv, dd, false⟩ := by
  intro r
  induction r with
  | zero => intro s _; simp
  | succ k ih =>
    intro s hs
    rw [Function.iterate_succ_apply]
    have hs0 : s ≠ 0 := by omega
    have hstep : Envelope.clock ⟨false, P, s, cv, dd, false⟩ =
        ⟨false, P, s - 1, cv, dd, false⟩ := by
      unfold Envelope.clock
      simp [hs0]
    rw [hstep, ih (s - 1) (by omega)]
    have : s - 1 - k = s - (k + 1) := by omega
    rw [this]

/-- Envelope::clock at step counter zero with a positive decay level reloads
the step counter from the period and decrements the decay level. -/
lemma env_clock_zero_step (P : Nat) (cv : Bool) (d : Nat) (hd : d ≠ 0) :
    Envelope.clock ⟨false, P, 0, cv, d, false⟩ = ⟨false, P, P, cv, d - 1, false⟩ := by
  unfold Envelope.clock
  simp [hd]

/-- One full divider round of P + 1 clocks lowers the decay level by one. -/
lemma env_clock_chunk (P : Nat) (cv : Bool) (d : Nat) :
    Envelope.clock^[P + 1] ⟨false, P, P, cv, d + 1, false⟩ =
      ⟨false, P, P, cv, d, false⟩ := by
  rw [Function.iterate_succ_apply']
  rw [env_clock_step_run P cv (d + 1) P P (le_refl P)]
  rw [Nat.sub_self]
  rw [env_clock_zero_step P cv (d + 1) (by omega)]
  rfl

/-- After d whole divider rounds the decay level is 15 - d. -/
lemma env_clock_descent (P : Nat) (cv : Bool) :
    ∀ d, d ≤ 15 →
      Envelope.clock^[(P + 1) * d] ⟨false, P, P, cv, 15, false⟩ =
        ⟨false, P, P, cv, 15 - d, false⟩ := by
  intro d
  induction d with
  | zero => intro _; simp
  | succ k ih =>
    intro hk
    have hmul : (P + 1) * (k + 1) = (P + 1) + (P + 1) * k := by ring
    rw [hmul, Function.iterate_add_apply, ih (by omega)]
    have h15 : 15 - k = (15 - (k + 1)) + 1 := by omega
    rw [h15, env_clock_chunk]

/-- With the loop flag clear, a decay level of zero is absorbing. -/
lemma env_clock_zero_stays (P : Nat) (cv : Bool) :
    ∀ m s, (Envelope.clock^[m] ⟨false, P, s, cv, 0, false⟩).decay_counter = 0 := by
  intro m
  induction m with
  | zero => intro s; rfl
  | succ k ih =>
    intro s
    rw [Function.iterate_succ_apply]
    by_cases hs : s = 0
    · subst hs
      have hstep : Envelope.clock ⟨false, P, 0, cv, 0, false⟩ =
          ⟨false, P, P, cv, 0, false⟩ := by
        unfold Envelope.clock
        simp
      rw [hstep]
      exact ih P
    · have hstep : Envelope.clock ⟨false, P, s, cv, 0, false⟩ =
          ⟨false, P, s - 1, cv, 0, false⟩ := by
        unfold Envelope.clock
        simp [hs]
      rw [hstep]
      exact ih (s - 1)

/-- C8: from the state reached right after a clock() consumed the start flag
(start clear, decay level 15, step counter = period = P), with the loop flag
clear and no intervening writes, the decay level first reaches 0 after
exactly (P + 1) * 15 further clocks and stays 0 under every further clock. -/
theorem c8_envelope_decay (P : Nat) (cv : Bool) (_hP : P ≤ 15) :
    ((Envelope.clock^[(P + 1) * 15] ⟨false, P, P, cv, 15, false⟩).decay_counter = 0) ∧
    (∀ m, m < (P + 1) * 15 →
      (Envelope.clock^[m] ⟨false, P, P, cv, 15, false⟩).decay_counter ≠ 0) ∧
    (∀ k, (Envelope.clock^[(P + 1) * 15 + k]
            ⟨false, P, P, cv, 15, false⟩).decay_counter = 0) := by
  refine ⟨?_, ?_, ?_⟩
  · rw [env_clock_descent P cv 15 (le_refl 15)]
  · intro m hm
    have hP1 : 0 < P + 1 := Nat.succ_pos P
    have hdm := Nat.div_add_mod m (P + 1)
    have hrlt : m % (P + 1) < P + 1 := Nat.mod_lt _ hP1
    have hq : m / (P + 1) < 15 := by
      rw [Nat.div_lt_iff_lt_mul hP1]
      calc m < (P + 1) * 15 := hm
        _ = 15 * (P + 1) := Nat.mul_comm _ _
    have hsplit : m = m % (P + 1) + (P + 1) * (m / (P + 1)) := by
      rw [Nat.add_comm]
      exact hdm.symm
    rw [hsplit, Function.iterate_add_apply]
    rw [env_clock_descent P cv (m / (P + 1)) (Nat.le_of_lt hq)]
    rw [env_clock_step_run P cv (15 - m / (P + 1)) (m % (P + 1)) P
      (Nat.lt_succ_iff.mp hrlt)]
    show 15 - m / (P + 1) ≠ 0
    generalize m / (P + 1) = q at hq
    omega
  · intro k
    rw [Nat.add_comm, Function.iterate_add_apply]
    rw [env_clock_descent P cv 15 (le_refl 15)]
    rw [show (15 : Nat) - 15 = 0 from rfl]
    exact env_clock_zero_stays P cv k P

/-- Witness for c8_envelope_decay at P = 1: the decay level is 0 after
exactly 30 clocks. -/
theorem c8_envelope_decay_witness :
    (1 : Nat) ≤ 15 ∧
    (Envelope.clock^[(1 + 1) * 15] ⟨false, 1, 1, false, 15, false⟩).decay_counter = 0 :=
  ⟨by decide, (c8_envelope_decay 1 false (by decide)).1⟩


/-! ### C6: the status read -/

lemma rs_bit0 (n : Nes) :
    ((n.apu_read_status).1.testBit 0 = true ↔ 0 < n.apu.pulse_1.length_counter.counter) := by
  simp only [Nes.apu_read_status]
  split_ifs <;> simp_all

lemma rs_bit1 (n : Nes) :
    ((n.apu_read_status).1.testBit 1 = true ↔ 0 < n.apu.pulse_2.length_counter.counter) := by
  simp only [Nes.apu_read_status]
  split_ifs <;> simp_all <;> decide

lemma rs_bit2 (n : Nes) :
    ((n.apu_read_status).1.testBit 2 = true ↔ 0 < n.apu.triangle.length_counter.counter) := by
  simp only [Nes.apu_read_status]
  split_ifs <;> simp_all <;> decide

lemma rs_bit3 (n : Nes) :
    ((n.apu_read_status).1.testBit 3 = true ↔ 0 < n.apu.noise.length_counter.counter) := by
  simp only [Nes.apu_read_status]
  split_ifs <;> simp_all <;> decide

lemma rs_bit6 (n : Nes) :
    ((n.apu_read_status).1.testBit 6 = true ↔ n.apu.frame_counter.irq_inhibit = true) := by
  simp only [Nes.apu_read_status]
  split_ifs <;> simp_all <;> decide

lemma rs_bit7 (n : Nes) :
    ((n.apu_read_status).1.testBit 7 = true ↔ n.apu.dmc.irq_enable = true) := by
  simp only [Nes.apu_read_status]
  split_ifs <;> simp_all <;> decide

/-- C6: read_status returns a byte whose bits 0..3 are set exactly when the
pulse-1, pulse-2, triangle and noise length counters are positive, whose bit
6 equals the frame irq_inhibit flag and whose bit 7 equals the DMC
irq_enable flag at call time; the call clears irq_inhibit and the shared irq
signal, so an immediate second read returns bit 6 clear -- the read is not
idempotent. -/
theorem c6_read_status (n : Nes) :
    ((n.apu_read_status).1.testBit 0 = true ↔ 0 < n.apu.pulse_1.length_counter.counter) ∧
    ((n.apu_read_status).1.testBit 1 = true ↔ 0 < n.apu.pulse_2.length_counter.counter) ∧
    ((n.apu_read_status).1.testBit 2 = true ↔ 0 < n.apu.triangle.length_counter.counter) ∧
    ((n.apu_read_status).1.testBit 3 = true ↔ 0 < n.apu.noise.length_counter.counter) ∧
    ((n.apu_read_status).1.testBit 6 = true ↔ n.apu.frame_counter.irq_inhibit = true) ∧
    ((n.apu_read_status).1.testBit 7 = true ↔ n.apu.dmc.irq_enable = true) ∧
    ((n.apu_read_status).2.apu.frame_counter.irq_inhibit = false) ∧
    ((n.apu_read_status).2.irq_signal = false) ∧
    (((n.apu_read_status).2.apu_read_status).1.testBit 6 = false) := by
  refine ⟨rs_bit0 n, rs_bit1 n, rs_bit2 n, rs_bit3 n, rs_bit6 n, rs_bit7 n, rfl, rfl, ?_⟩
  have h := rs_bit6 ((n.apu_read_status).2)
  have hinh : ((n.apu_read_status).2).apu.frame_counter.irq_inhibit = false := rfl
  rw [hinh] at h
  simpa using h

/-! ### C5: the 0x4015 enable write -/

/-- Effect of the 0x4015 write on the dmc flag and length counters. -/
lemma ws_spec (a : Apu) (v : Nat) :
    ((a.write_status v).dmc.irq_enable = false) ∧
    ((a.write_status v).noise.length_counter.enabled = (v &&& 8 != 0)) ∧
    (v &&& 8 = 0 → (a.write_status v).noise.length_counter.counter = 0) ∧
    ((a.write_status v).triangle.length_counter.enabled = (v &&& 4 != 0)) ∧
    (v &&& 4 = 0 → (a.write_status v).triangle.length_counter.counter = 0) ∧
    ((a.write_status v).pulse_2.length_counter.enabled = (v &&& 2 != 0)) ∧
    (v &&& 2 = 0 → (a.write_status v).pulse_2.length_counter.counter = 0) ∧
    ((a.write_status v).pulse_1.length_counter.enabled = (v &&& 1 != 0)) ∧
    (v &&& 1 = 0 → (a.write_status v).pulse_1.length_counter.counter = 0) := by
  simp only [Apu.write_status]
  split_ifs <;> simp_all

/-- The register dispatch routes the 0x4015 write to the status write. -/
lemma w4015_eq (n : Nes) (v : Nat) :
    n.apu_write_reg 0x4015 v = { n with apu := n.apu.write_status v } := by
  simp [Nes.apu_write_reg, Apu.write_reg]

/-- C5: writing v to 0x4015 clears the DMC irq_enable flag; for each of
noise, triangle, pulse-2, pulse-1, the channel length counter enabled flag
becomes the value of its enable bit, a clear enable bit forces the counter to
0 immediately, and a status read issued right afterwards reports the
corresponding length-active bit as 0 for every channel whose bit was clear. -/
theorem c5_write_4015 (n : Nes) (v : Nat) :
    ((n.apu_write_reg 0x4015 v).apu.dmc.irq_enable = false) ∧
    ((n.apu_write_reg 0x4015 v).apu.noise.length_counter.enabled = (v &&& 8 != 0)) ∧
    (v &&& 8 = 0 → (n.apu_write_reg 0x4015 v).apu.noise.length_counter.counter = 0) ∧
    ((n.apu_write_reg 0x4015 v).apu.triangle.length_counter.enabled = (v &&& 4 != 0)) ∧
    (v &&& 4 = 0 → (n.apu_write_reg 0x4015 v).apu.triangle.length_counter.counter = 0) ∧
    ((n.apu_write_reg 0x4015 v).apu.pulse_2.length_counter.enabled = (v &&& 2 != 0)) ∧
    (v &&& 2 = 0 → (n.apu_write_reg 0x4015 v).apu.pulse_2.length_counter.counter = 0) ∧
    ((n.apu_write_reg 0x4015 v).apu.pulse_1.length_counter.enabled = (v &&& 1 != 0)) ∧
    (v &&& 1 = 0 → (n.apu_write_reg 0x4015 v).apu.pulse_1.length_counter.counter = 0) ∧
    (v &&& 8 = 0 → ((n.apu_write_reg 0x4015 v).apu_read_status).1.testBit 3 = false) ∧
    (v &&& 4 = 0 → ((n.apu_write_reg 0x4015 v).apu_read_status).1.testBit 2 = false) ∧
    (v &&& 2 = 0 → ((n.apu_write_reg 0x4015 v).apu_read_status).1.testBit 1 = false) ∧
    (v &&& 1 = 0 → ((n.apu_write_reg 0x4015 v).apu_read_status).1.testBit 0 = false) := by
  rw [w4015_eq]
  obtain ⟨h1, h2, h3, h4, h5, h6, h7, h8, h9⟩ := ws_spec n.apu v
  refine ⟨h1, h2, h3, h4, h5, h6, h7, h8, h9, ?_, ?_, ?_, ?_⟩
  · intro h0
    have hb := rs_bit3 { n with apu := n.apu.write_status v }
    rw [show ({ n with apu := n.apu.write_status v } : Nes).apu.noise.length_counter.counter
          = (n.apu.write_status v).noise.length_counter.counter from rfl, h3 h0] at hb
    simpa using hb
  · intro h0
    have hb := rs_bit2 { n with apu := n.apu.write_status v }
    rw [show ({ n with apu := n.apu.write_status v } : Nes).apu.triangle.length_counter.counter
          = (n.apu.write_status v).triangle.length_counter.counter from rfl, h5 h0] at hb
    simpa using hb
  · intro h0
    have hb := rs_bit1 { n with apu := n.apu.write_status v }
    rw [show ({ n with apu := n.apu.write_status v } : Nes).apu.pulse_2.length_counter.counter
          = (n.apu.write_status v).pulse_2.length_counter.counter from rfl, h7 h0] at hb
    simpa using hb
  · intro h0
    have hb := rs_bit0 { n with apu := n.apu.write_status v }
    rw [show ({ n with apu := n.apu.write_status v } : Nes).apu.pulse_1.length_counter.counter
          = (n.apu.write_status v).pulse_1.length_counter.counter from rfl, h9 h0] at hb
    simpa using hb

/-- Witness for c5_write_4015: disabling every channel on the fresh state
forces the noise length counter to 0. -/
theorem c5_write_4015_witness :
    (0 : Nat) &&& 8 = 0 ∧
    (Nes.new.apu_write_reg 0x4015 0).apu.noise.length_counter.counter = 0 :=
  ⟨rfl, (c5_write_4015 Nes.new 0).2.2.1 rfl⟩

/-! ### C4: the 0x4017 frame counter write -/

/-- The register dispatch at 0x4017: conditional immediate clocking, then
FrameCounter::set_mi against the shared irq line. -/
lemma w4017_eq (n : Nes) (v : Nat) :
    n.apu_write_reg 0x4017 v =
      (let n1 := if v &&& 0x80 ≠ 0 then { n with apu := n.apu.clockHalfFrame } else n
       let p := FrameCounter.set_mi n1.apu.frame_counter v n1.irq_signal
       { n1 with
         apu := { n1.apu with frame_counter := p.1 },
         irq_signal := p.2 }) := by
  simp [Nes.apu_write_reg]

/-- C4 (amended): writing v to 0x4017 immediately clocks both pulse frame
units and the noise and triangle length counters when bit 7 of v is set; the
mode flag is updated unconditionally from bit 7; the irq_inhibit flag is NOT
updated unconditionally from v: it is and-combined with the prior flag (it
stays set only if it was set and bit 6 of v is clear); if the resulting flag
is set the shared irq signal is cleared, otherwise it is left unchanged. -/
theorem c4_write_4017 (n : Nes) (v : Nat) :
    (v &&& 0x80 ≠ 0 →
      ((n.apu_write_reg 0x4017 v).apu.pulse_1 = Pulse.frame_clock 1 n.apu.pulse_1 ∧
       (n.apu_write_reg 0x4017 v).apu.pulse_2 = Pulse.frame_clock 0 n.apu.pulse_2 ∧
       (n.apu_write_reg 0x4017 v).apu.noise.length_counter = n.apu.noise.length_counter.clock ∧
       (n.apu_write_reg 0x4017 v).apu.triangle.length_counter = n.apu.triangle.length_counter.clock)) ∧
    ((n.apu_write_reg 0x4017 v).apu.frame_counter.mode = (v &&& 0x80 != 0)) ∧
    ((n.apu_write_reg 0x4017 v).apu.frame_counter.irq_inhibit =
      (n.apu.frame_counter.irq_inhibit && (v &&& 0x40 == 0))) ∧
    ((n.apu.frame_counter.irq_inhibit && (v &&& 0x40 == 0)) = true →
      (n.apu_write_reg 0x4017 v).irq_signal = false) ∧
    ((n.apu.frame_counter.irq_inhibit && (v &&& 0x40 == 0)) = false →
      (n.apu_write_reg 0x4017 v).irq_signal = n.irq_signal) := by
  rw [w4017_eq]
  simp only [FrameCounter.set_mi, Apu.clockHalfFrame]
  split_ifs with h80 <;> simp_all

/-- The fresh power-on state (irq_inhibit starts true). -/
def c4_nA : Nes := Nes.new

/-- The same state with the irq_inhibit flag cleared. -/
def c4_nB : Nes :=
  { Nes.new with
    apu := { Apu.new with
             frame_counter := { FrameCounter.new with irq_inhibit := false } } }

/-- C4 counterexample: two states that differ only in the prior irq_inhibit
flag receive the same 0x4017 write with value 0, and end with different
inhibit flags: the flag after the write is not a function of the written
value alone, so it is not updated unconditionally from v. -/
theorem c4_inhibit_counterexample :
    (c4_nA.apu_write_reg 0x4017 0).apu.frame_counter.irq_inhibit = true ∧
    (c4_nB.apu_write_reg 0x4017 0).apu.frame_counter.irq_inhibit = false ∧
    c4_nA.apu.frame_counter.mode = c4_nB.apu.frame_counter.mode := by
  decide

/-- Witness for c4_write_4017 with bit 7 set: the write immediately frame
clocks pulse 1 and sets the 5-step mode flag. -/
theorem c4_write_4017_witness :
    (192 : Nat) &&& 0x80 ≠ 0 ∧
    (Nes.new.apu_write_reg 0x4017 192).apu.pulse_1 = Pulse.frame_clock 1 Nes.new.apu.pulse_1 ∧
    (Nes.new.apu_write_reg 0x4017 192).apu.frame_counter.mode = ((192 : Nat) &&& 0x80 != 0) :=
  ⟨by decide, ((c4_write_4017 Nes.new 192).1 (by decide)).1,
   (c4_write_4017 Nes.new 192).2.1⟩

/-! ### C3: the tick schedule -/

/-- Modelled from the claim: the frame events grouped by kind. In 4-step
mode (mode flag clear) envelope-only clocks fire at counter values 7457 and
22371, envelope + length/sweep clocks at 14913 and 29829, the interrupt
placeholders at 29828/29829/29830 are inert, the counter resets to 0 at
29830; in 5-step mode the same envelope / half-frame pattern fires at 7457,
14913, 22371, 37281 and the counter resets at 37282 with no extra clocking;
no frame event fires at any other counter value. -/
def Apu.frameDispatchSpec (a : Apu) : Apu :=
  if a.frame_counter.mode = false then
    if a.cycles = 7457 ∨ a.cycles = 22371 then a.clockEnvelopes
    else if a.cycles = 14913 ∨ a.cycles = 29829 then a.clockHalfFrame
    else if a.cycles = 29830 then { a with cycles := 0 }
    else a
  else
    if a.cycles = 7457 ∨ a.cycles = 22371 then a.clockEnvelopes
    else if a.cycles = 14913 ∨ a.cycles = 37281 then a.clockHalfFrame
    else if a.cycles = 37282 then { a with cycles := 0 }
    else a

/-- The source dispatch fires exactly the events of the claimed schedule. -/
lemma frameDispatch_eq_spec (a : Apu) : a.frameDispatch = a.frameDispatchSpec := by
  unfold Apu.frameDispatch Apu.frameDispatchSpec
  rcases Bool.eq_false_or_eq_true a.frame_counter.mode with hm | hm <;>
    simp [hm] <;> split_ifs <;> first | rfl | omega

/-- Modelled from the claim, stage for stage: clock both pulse duty-phase
timers exactly when the cycle counter is even, then increment the wrapping
counter, fire exactly the scheduled frame events, and advance the sample
divider. -/
def Apu.tickSpec (a : Apu) : Apu :=
  a.pulseTimers.advanceCycles.frameDispatchSpec.sampleStep

/-- C3: every tick() call clocks both pulse duty-phase timers exactly when
the cycle counter is even, increments the counter, and fires exactly the
mode-dependent schedule of the claim: 4-step mode clocks envelopes at 7457
and 22371, envelopes plus length/sweep plus triangle and noise length
counters at 14913 and 29829, is inert at 29828 and resets the counter at
29830; 5-step mode follows the same pattern at 7457, 14913, 22371, 37281 and
resets with no extra clocking at 37282; nothing fires elsewhere. -/
theorem c3_tick_schedule (n : Nes) :
    n.apu_tick = { n with apu := n.apu.tickSpec } := by
  simp only [Nes.apu_tick, Apu.tick, Apu.tickSpec, frameDispatch_eq_spec]

/-! ### C9: the shared interrupt line is never asserted -/

/-- C9: no APU operation raises the shared irq signal: tick() leaves it
unchanged (the 4-step interrupt placeholders at 29828/29829/29830 assert
nothing), a register write leaves it unchanged or clears it, and a status
read clears it. -/
theorem c9_no_interrupt_assert (n : Nes) (addr val : Nat) :
    ((n.apu_tick).irq_signal = n.irq_signal) ∧
    ((n.apu_write_reg addr val).irq_signal = n.irq_signal ∨
      (n.apu_write_reg addr val).irq_signal = false) ∧
    (((n.apu_read_status).2).irq_signal = false) := by
  refine ⟨rfl, ?_, rfl⟩
  by_cases h17 : addr = 0x4017
  · subst h17
    rw [w4017_eq]
    simp only [FrameCounter.set_mi]
    split_ifs <;> simp
  · left
    unfold Nes.apu_write_reg
    rw [if_neg h17]

/-! ### C10: envelope bounds, reachable states and mixer indices -/

/-- The bound the mixer needs: envelope period and step at most 15. -/
def Envelope.bounded (e : Envelope) : Prop := e.period ≤ 15 ∧ e.step ≤ 15

/-- Both pulse envelopes bounded. -/
def Apu.env_bounded (a : Apu) : Prop :=
  a.pulse_1.envelope.bounded ∧ a.pulse_2.envelope.bounded

/-- States reachable from power-on through the APU operations: ticks,
register writes and status reads. -/
inductive Reachable : Nes → Prop where
  | init : Reachable Nes.new
  | tick {n : Nes} : Reachable n → Reachable n.apu_tick
  | write {n : Nes} (addr val : Nat) : Reachable n → Reachable (n.apu_write_reg addr val)
  | read {n : Nes} : Reachable n → Reachable (n.apu_read_status).2

lemma Envelope.clock_bounded {e : Envelope} (h : e.bounded) : e.clock.bounded := by
  obtain ⟨h1, h2⟩ := h
  unfold Envelope.clock Envelope.bounded
  split_ifs <;> simp_all <;> omega

lemma Pulse.clock_envelope (p : Pulse) : (p.clock).envelope = p.envelope := by
  unfold Pulse.clock
  split <;> rfl

lemma Pulse.set_dlcv_bounded {p : Pulse} (v : Nat) (h : p.envelope.bounded) :
    (p.set_dlcv v).envelope.bounded :=
  ⟨Nat.and_le_right, h.2⟩

lemma Apu.clockEnvelopes_env {a : Apu} (h : a.env_bounded) :
    a.clockEnvelopes.env_bounded :=
  ⟨Envelope.clock_bounded h.1, Envelope.clock_bounded h.2⟩

lemma Apu.clockHalfFrame_env {a : Apu} (h : a.env_bounded) :
    a.clockHalfFrame.env_bounded :=
  ⟨Envelope.clock_bounded h.1, Envelope.clock_bounded h.2⟩

lemma Apu.frameDispatch_env {a : Apu} (h : a.env_bounded) :
    a.frameDispatch.env_bounded := by
  unfold Apu.frameDispatch
  split_ifs <;>
    first
      | exact Apu.clockEnvelopes_env h
      | exact Apu.clockHalfFrame_env h
      | exact h

lemma Apu.pulseTimers_env {a : Apu} (h : a.env_bounded) :
    a.pulseTimers.env_bounded := by
  unfold Apu.pulseTimers
  split_ifs with hc
  · constructor
    · show (a.pulse_1.clock).envelope.bounded
      rw [Pulse.clock_envelope]
      exact h.1
    · show (a.pulse_2.clock).envelope.bounded
      rw [Pulse.clock_envelope]
      exact h.2
  · exact h

lemma Apu.advanceCycles_env {a : Apu} (h : a.env_bounded) :
    a.advanceCycles.env_bounded := h

lemma Apu.sampleStep_env {a : Apu} (h : a.env_bounded) :
    a.sampleStep.env_bounded := by
  simp only [Apu.sampleStep]
  split_ifs <;> exact h

lemma Apu.tick_env {a : Apu} (h : a.env_bounded) : a.tick.env_bounded :=
  Apu.sampleStep_env (Apu.frameDispatch_env (Apu.advanceCycles_env (Apu.pulseTimers_env h)))

lemma Apu.write_status_env {a : Apu} (v : Nat) (h : a.env_bounded) :
    (a.write_status v).env_bounded := by
  simp only [Apu.write_status]
  split_ifs <;> exact h

lemma Apu.write_reg_env {a : Apu} (addr v : Nat) (h : a.env_bounded) :
    (a.write_reg addr v).env_bounded := by
  unfold Apu.write_reg
  by_cases h0 : addr = 0x4000
  · rw [if_pos h0]
    exact ⟨Pulse.set_dlcv_bounded v h.1, h.2⟩
  rw [if_neg h0]
  by_cases h1 : addr = 0x4001
  · rw [if_pos h1]
    exact h
  rw [if_neg h1]
  by_cases h2 : addr = 0x4002
  · rw [if_pos h2]
    exact h
  rw [if_neg h2]
  by_cases h3 : addr = 0x4003
  · rw [if_pos h3]
    exact h
  rw [if_neg h3]
  by_cases h4 : addr = 0x4004
  · rw [if_pos h4]
    exact ⟨h.1, Pulse.set_dlcv_bounded v h.2⟩
  rw [if_neg h4]
  by_cases h5 : addr = 0x4005
  · rw [if_pos h5]
    exact h
  rw [if_neg h5]
  by_cases h6 : addr = 0x4006
  · rw [if_pos h6]
    exact h
  rw [if_neg h6]
  by_cases h7 : addr = 0x4007
  · rw [if_pos h7]
    exact h
  rw [if_neg h7]
  by_cases h8 : addr = 0x4008
  · rw [if_pos h8]
    exact h
  rw [if_neg h8]
  by_cases h9 : addr = 0x400A
  · rw [if_pos h9]
    exact h
  rw [if_neg h9]
  by_cases h10 : addr = 0x400B
  · rw [if_pos h10]
    exact h
  rw [if_neg h10]
  by_cases h11 : addr = 0x400C
  · rw [if_pos h11]
    exact h
  rw [if_neg h11]
  by_cases h12 : addr = 0x400E
  · rw [if_pos h12]
    exact h
  rw [if_neg h12]
  by_cases h13 : addr = 0x400F
  · rw [if_pos h13]
    exact h
  rw [if_neg h13]
  by_cases h14 : addr = 0x4010
  · rw [if_pos h14]
    exact h
  rw [if_neg h14]
  by_cases h15 : addr = 0x4011
  · rw [if_pos h15]
    exact h
  rw [if_neg h15]
  by_cases h16 : addr = 0x4012
  · rw [if_pos h16]
    exact h
  rw [if_neg h16]
  by_cases h17 : addr = 0x4013
  · rw [if_pos h17]
    exact h
  rw [if_neg h17]
  by_cases h18 : addr = 0x4015
  · rw [if_pos h18]
    exact Apu.write_status_env v h
  rw [if_neg h18]
  exact h

lemma Nes.write_env {n : Nes} (addr v : Nat) (h : n.apu.env_bounded) :
    (n.apu_write_reg addr v).apu.env_bounded := by
  simp only [Nes.apu_write_reg]
  split_ifs with h17 h80
  · exact Apu.clockHalfFrame_env h
  · exact h
  · exact Apu.write_reg_env addr v h

lemma reachable_env_bounded {n : Nes} (h : Reachable n) : n.apu.env_bounded := by
  induction h with
  | init => exact ⟨⟨Nat.zero_le 15, Nat.zero_le 15⟩, ⟨Nat.zero_le 15, Nat.zero_le 15⟩⟩
  | tick _ ih => exact Apu.tick_env ih
  | write addr val _ ih => exact Nes.write_env addr val ih
  | read _ ih => exact ih

lemma Pulse.output_le {p : Pulse} (h : p.envelope.bounded) : p.output ≤ 15 := by
  simp only [Pulse.output]
  split_ifs <;> first | exact h.1 | exact h.2 | omega

/-- C10: in every reachable state both envelope periods and step counters
are at most 15, hence each pulse output is at most 15, the pulse mixer table
index is at most 30 and inside the 31-entry table, and the tnd index (fixed
0 while the triangle/noise/DMC contributions are placeholders) is inside the
203-entry table: the mixer lookups are in bounds. -/
theorem c10_mixer_bounds (n : Nes) (h : Reachable n) :
    n.apu.pulse_1.envelope.period ≤ 15 ∧ n.apu.pulse_1.envelope.step ≤ 15 ∧
    n.apu.pulse_2.envelope.period ≤ 15 ∧ n.apu.pulse_2.envelope.step ≤ 15 ∧
    n.apu.pulse_1.output ≤ 15 ∧ n.apu.pulse_2.output ≤ 15 ∧
    n.mixer_pulse_index ≤ 30 ∧ n.mixer_pulse_index < pulse_table_len ∧
    n.mixer_tnd_index < tnd_table_len := by
  have hb := reachable_env_bounded h
  have ho1 := Pulse.output_le hb.1
  have ho2 := Pulse.output_le hb.2
  refine ⟨hb.1.1, hb.1.2, hb.2.1, hb.2.2, ho1, ho2, ?_, ?_,
    by simp only [Nes.mixer_tnd_index, tnd_table_len]; omega⟩
  · unfold Nes.mixer_pulse_index
    omega
  · unfold Nes.mixer_pulse_index pulse_table_len
    omega

/-- Witness for c10_mixer_bounds at the power-on state. -/
theorem c10_mixer_bounds_witness :
    Nes.new.mixer_pulse_index ≤ 30 ∧ Nes.new.mixer_pulse_index < pulse_table_len ∧
    Nes.new.mixer_tnd_index < tnd_table_len :=
  ⟨(c10_mixer_bounds Nes.new Reachable.init).2.2.2.2.2.2.1,
   (c10_mixer_bounds Nes.new Reachable.init).2.2.2.2.2.2.2.1,
   (c10_mixer_bounds Nes.new Reachable.init).2.2.2.2.2.2.2.2⟩
